import Mathlib

/-!
Verification of the anomaly-detection core of the repository
(`Project 1 Streamlit/analysis.py`).

The embedding models:
* a dataset row (`Point`) with city, timestamp, temperature and season;
* `analyze_city`: sort by timestamp, rolling mean / sample standard
  deviation over a trailing window with `min_periods = window`,
  bounds `mean ± 2·std`, anomaly flag;
* `analyze_all_cities` / `analyze_all_cities_parallel`: per-city batch runs;
* `compute_season_stats`: per-(city, season) mean and sample std;
* `check_current_temperature_anomaly`: live-reading classification.

Floating-point values are idealised as real numbers.  A NaN cell of the
pandas frame (insufficient window, or a zero `ddof` divisor making the
sample statistic undefined) is modelled as `none`; arithmetic on possibly
missing cells propagates `none`, and a comparison against a missing cell
is false, exactly as comparisons against NaN are false.
-/

namespace TempAnomaly

/-- A row of the input dataset: columns `city`, `timestamp`, `temperature`,
`season`.  Timestamps are idealised as integers (any linearly ordered
time-stamp type would do). -/
structure Point where
  city : String
  timestamp : ℤ
  temperature : ℝ
  season : String

/-- A row of the frame returned by `analyze_city`: the original columns plus
`rolling_mean`, `rolling_std`, `lower_bound`, `upper_bound` (missing = NaN)
and the anomaly flag. -/
structure RollingResult where
  city : String
  timestamp : ℤ
  temperature : ℝ
  season : String
  rolling_mean : Option ℝ
  rolling_std : Option ℝ
  lower_bound : Option ℝ
  upper_bound : Option ℝ
  is_anomaly : Prop

/-- Comparison `x < b` against a possibly-missing (NaN) right operand:
false when missing, as comparisons against NaN are false. -/
def ltOpt (x : ℝ) (b : Option ℝ) : Prop :=
  match b with
  | some y => x < y
  | none => False

/-- Comparison `x > b` against a possibly-missing (NaN) right operand:
false when missing. -/
def gtOpt (x : ℝ) (b : Option ℝ) : Prop :=
  match b with
  | some y => y < x
  | none => False

/-- Arithmetic mean of a list of reals (`sum / len`). -/
noncomputable def listMean (l : List ℝ) : ℝ := l.sum / l.length

/-- Sample variance with divisor `len - 1` (the pandas default `ddof = 1`). -/
noncomputable def sampleVar (l : List ℝ) : ℝ :=
  (l.map (fun x => (x - listMean l) ^ 2)).sum / ((l.length : ℝ) - 1)

/-- The trailing window of (at most) `w` values ending at index `i`
inclusive, exactly the values `rolling(window=w)` aggregates at row `i`. -/
def windowSlice (vals : List ℝ) (w i : ℕ) : List ℝ :=
  (vals.take (i + 1)).drop (i + 1 - w)

/-- Model of `rolling(window=w, min_periods=w).mean()` at row `i`: NaN
(`none`) while fewer than `w` values are available, else the mean of the
window. -/
noncomputable def rollingMeanAt (vals : List ℝ) (w i : ℕ) : Option ℝ :=
  if i + 1 < w then none else some (listMean (windowSlice vals w i))

/-- Model of `rolling(window=w, min_periods=w).std()` at row `i`: NaN
(`none`) while fewer than `w` values are available; for `w ≤ 1` the
`ddof = 1` divisor is zero and the float computation is `0.0 / 0.0 = NaN`
(`none`); otherwise the square root of the sample variance of the window. -/
noncomputable def rollingStdAt (vals : List ℝ) (w i : ℕ) : Option ℝ :=
  if i + 1 < w then none
  else if w ≤ 1 then none
  else some (Real.sqrt (sampleVar (windowSlice vals w i)))

/-- Model of `sort_values("timestamp")`: a deterministic sort by timestamp.
The default pandas sort (`kind='quicksort'`) guarantees only a
timestamp-sorted permutation — see `sortValuesAdmissible` — and documents
that it need not be stable; the merge sort used here fixes one admissible
tie order so that the rest of the pipeline can be embedded as a function. -/
def sortByTimestamp (pts : List Point) : List Point :=
  pts.mergeSort (fun a b => decide (a.timestamp ≤ b.timestamp))

/-- Modelled from the pandas documentation of `sort_values` with the default
`kind='quicksort'`: the output is guaranteed to be a permutation of the
input that is non-decreasing in the sort key, and stability is documented
NOT to be guaranteed, so the contract determines the output only up to the
order of rows with equal timestamps.  Any list satisfying this predicate is
an admissible result of the sort call. -/
def sortValuesAdmissible (pts out : List Point) : Prop :=
  out.Perm pts ∧ out.Pairwise (fun a b => a.timestamp ≤ b.timestamp)

/-- The output row `analyze_city` produces at sorted index `i` for point `p`,
where `vals` is the full sorted temperature column. -/
noncomputable def resultAt (vals : List ℝ) (w i : ℕ) (p : Point) : RollingResult :=
  let m := rollingMeanAt vals w i
  let s := rollingStdAt vals w i
  let lo := Option.map₂ (fun a b => a - 2 * b) m s
  let hi := Option.map₂ (fun a b => a + 2 * b) m s
  { city := p.city, timestamp := p.timestamp, temperature := p.temperature,
    season := p.season, rolling_mean := m, rolling_std := s,
    lower_bound := lo, upper_bound := hi,
    is_anomaly := ltOpt p.temperature lo ∨ gtOpt p.temperature hi }

/-- Model of `analyze_city`: sort one city's rows by timestamp, attach
rolling mean, rolling std, the `mean ± 2·std` bounds and the anomaly flag. -/
noncomputable def analyze_city (pts : List Point) (w : ℕ) : List RollingResult :=
  let sorted := sortByTimestamp pts
  let vals := sorted.map Point.temperature
  sorted.mapIdx (fun i p => resultAt vals w i p)

/-- Placeholder point used only as the out-of-range default of `List.getD`. -/
def dfltPoint : Point := ⟨"", 0, 0, ""⟩

/-- Placeholder result row used only as the out-of-range default of
`List.getD`. -/
def dfltRow : RollingResult := ⟨"", 0, 0, "", none, none, none, none, False⟩

/-- The result row of `analyze_city` at sorted index `i` (total accessor). -/
noncomputable def rowAt (pts : List Point) (w i : ℕ) : RollingResult :=
  (analyze_city pts w).getD i dfltRow

/-- The input columns of a dataset row, used to compare result rows with
input rows. -/
def pointKey (p : Point) : String × ℤ × ℝ × String :=
  (p.city, p.timestamp, p.temperature, p.season)

/-- The input columns carried unchanged into a result row. -/
def resultKey (r : RollingResult) : String × ℤ × ℝ × String :=
  (r.city, r.timestamp, r.temperature, r.season)

/-- First-occurrence deduplication with an accumulator of already seen keys:
the semantics of the pandas `unique`, which keeps keys in order of first
appearance. -/
def firstUniquesAux {α : Type _} [DecidableEq α] (seen : List α) : List α → List α
  | [] => []
  | x :: xs =>
    if x ∈ seen then firstUniquesAux seen xs
    else x :: firstUniquesAux (x :: seen) xs

/-- Model of the pandas `unique`: the distinct values in order of first
appearance. -/
def firstUniques {α : Type _} [DecidableEq α] (l : List α) : List α :=
  firstUniquesAux [] l

/-- The distinct cities of the dataset in order of first appearance. -/
def uniqueCities (df : List Point) : List String :=
  firstUniques (df.map Point.city)

/-- The rows of one city, in dataset order. -/
def cityRows (df : List Point) (c : String) : List Point :=
  df.filter (fun q => decide (q.city = c))

/-- Failure mode of a per-city analysis task: an invalid (non-positive)
rolling window, rejected by the `rolling` call. -/
inductive AnalysisError where
  | invalidWindow
deriving DecidableEq

/-- The per-city analysis on a raw integer window: a non-positive window
makes the `rolling` call raise (`InvalidWindow`); otherwise the analysis
succeeds. -/
noncomputable def analyze_city_checked (pts : List Point) (w : ℤ) :
    Except AnalysisError (List RollingResult) :=
  if w ≤ 0 then .error .invalidWindow else .ok (analyze_city pts w.toNat)

/-- Collecting a sequence of task outcomes in order, stopping at the first
raised error: the behaviour both of the sequential loop and of draining the
process-pool map with a list constructor. -/
def collectResults {E A : Type _} : List (Except E A) → Except E (List A)
  | [] => .ok []
  | x :: xs =>
    match x with
    | .error e => .error e
    | .ok a => (collectResults xs).map (fun r => a :: r)

/-- Model of `analyze_all_cities`: run the per-city analysis for each city in
first-appearance order and concatenate the per-city frames. -/
noncomputable def analyze_all_cities (df : List Point) (w : ℤ) :
    Except AnalysisError (List RollingResult) :=
  (collectResults ((uniqueCities df).map
    (fun c => analyze_city_checked (cityRows df c) w))).map List.flatten

/-- Model of the task wrapper: unpack one `(city frame, window)` task. -/
noncomputable def analyze_city_wrapper (task : List Point × ℤ) :
    Except AnalysisError (List RollingResult) :=
  analyze_city_checked task.1 task.2

/-- Model of `analyze_all_cities_parallel`: build one task per city, map the
wrapper over the tasks (the process pool preserves task order and surfaces
the first raised error), and concatenate the per-city frames. -/
noncomputable def analyze_all_cities_parallel (df : List Point) (w : ℤ) :
    Except AnalysisError (List RollingResult) :=
  let tasks := (uniqueCities df).map (fun c => (cityRows df c, w))
  (collectResults (tasks.map analyze_city_wrapper)).map List.flatten

/-- A row of the seasonal baseline table: per (city, season) mean and sample
standard deviation of the full history.  A group with a single observation
has an undefined (NaN) sample std, modelled as `none`. -/
structure SeasonRow where
  city : String
  season : String
  mean : ℝ
  std : Option ℝ

/-- The calendar-month → season mapping of
`check_current_temperature_anomaly`: months 12, 1, 2 are winter; 3, 4, 5
spring; 6, 7, 8 summer; everything else autumn. -/
def seasonOfMonth (m : ℕ) : String :=
  if m = 12 ∨ m = 1 ∨ m = 2 then "winter"
  else if m = 3 ∨ m = 4 ∨ m = 5 then "spring"
  else if m = 6 ∨ m = 7 ∨ m = 8 then "summer"
  else "autumn"

/-- The temperature observations of one (city, season) group, in dataset
order. -/
def seasonGroup (df : List Point) (c s : String) : List ℝ :=
  (df.filter (fun q => decide (q.city = c ∧ q.season = s))).map Point.temperature

/-- The aggregated baseline row of one (city, season) group: mean and sample
standard deviation (`ddof = 1`; NaN — `none` — for a single observation,
where the divisor is zero). -/
noncomputable def seasonRowFor (df : List Point) (c s : String) : SeasonRow :=
  { city := c, season := s, mean := listMean (seasonGroup df c s),
    std := if (seasonGroup df c s).length ≤ 1 then none
           else some (Real.sqrt (sampleVar (seasonGroup df c s))) }

/-- Model of `compute_season_stats`: group by (city, season) and aggregate
mean and sample std — one row per observed (city, season) pair. -/
noncomputable def compute_season_stats (df : List Point) : List SeasonRow :=
  (firstUniques (df.map (fun q => (q.city, q.season)))).map
    (fun cs => seasonRowFor df cs.1 cs.2)

/-- Failure mode of the classifier: no baseline row exists for the looked-up
(city, season) pair, so taking the first row of the empty selection raises. -/
inductive ClassifyError where
  | noBaselineForSeason
deriving DecidableEq

/-- Model of `check_current_temperature_anomaly`: derive the season from the
current month, look up the first matching (city, season) baseline row
(raising when the selection is empty), and flag the live temperature when it
lies strictly outside `mean ± 2·std`.  The wall-clock month of the system
clock is modelled as the explicit `month` input. -/
noncomputable def check_current_temperature_anomaly (city : String)
    (current_temp : ℝ) (season_stats : List SeasonRow) (month : ℕ) :
    Except ClassifyError Prop :=
  match season_stats.filter
      (fun r => decide (r.city = city ∧ r.season = seasonOfMonth month)) with
  | [] => .error .noBaselineForSeason
  | row :: _ =>
    .ok (ltOpt current_temp (row.std.map (fun s => row.mean - 2 * s)) ∨
         gtOpt current_temp (row.std.map (fun s => row.mean + 2 * s)))

/-! ### Helper lemmas -/

theorem analyze_city_length (pts : List Point) (w : ℕ) :
    (analyze_city pts w).length = pts.length := by
  simp [analyze_city, sortByTimestamp]

theorem sortByTimestamp_length (pts : List Point) :
    (sortByTimestamp pts).length = pts.length := by
  simp [sortByTimestamp]

theorem rowAt_eq (pts : List Point) (w i : ℕ) (hi : i < pts.length) :
    rowAt pts w i =
      resultAt ((sortByTimestamp pts).map Point.temperature) w i
        ((sortByTimestamp pts).getD i dfltPoint) := by
  have h1 : i < (analyze_city pts w).length := by rw [analyze_city_length]; omega
  have h2 : i < (sortByTimestamp pts).length := by rw [sortByTimestamp_length]; omega
  rw [rowAt, List.getD_eq_getElem _ _ h1, List.getD_eq_getElem _ _ h2]
  simp [analyze_city]

theorem windowSlice_length (vals : List ℝ) (w i : ℕ) (hw : w ≤ i + 1)
    (hi : i < vals.length) : (windowSlice vals w i).length = w := by
  simp only [windowSlice, List.length_drop, List.length_take]
  omega

theorem windowSlice_one (vals : List ℝ) (i : ℕ) (hi : i < vals.length) :
    windowSlice vals 1 i = [vals.getD i 0] := by
  have hlen : (vals.take i).length = i := by
    simp only [List.length_take]; omega
  rw [windowSlice, Nat.add_sub_cancel, List.take_succ, List.getElem?_eq_getElem hi,
    List.getD_eq_getElem _ _ hi, List.drop_left' hlen]
  simp

theorem listMean_replicate (w : ℕ) (v : ℝ) (hw : 1 ≤ w) :
    listMean (List.replicate w v) = v := by
  rw [listMean, List.sum_replicate, List.length_replicate, nsmul_eq_mul]
  have : (w : ℝ) ≠ 0 := by positivity
  field_simp

theorem sampleVar_replicate (w : ℕ) (v : ℝ) (hw : 1 ≤ w) :
    sampleVar (List.replicate w v) = 0 := by
  rw [sampleVar, List.map_replicate, listMean_replicate w v hw]
  simp

theorem tsLE_trans (a b c : Point) :
    decide (a.timestamp ≤ b.timestamp) → decide (b.timestamp ≤ c.timestamp) →
      decide (a.timestamp ≤ c.timestamp) := by
  simp only [decide_eq_true_eq]
  omega

theorem tsLE_total (a b : Point) :
    decide (a.timestamp ≤ b.timestamp) || decide (b.timestamp ≤ a.timestamp) := by
  simp only [Bool.or_eq_true, decide_eq_true_eq]
  omega

theorem analyze_city_map_key (pts : List Point) (w : ℕ) :
    (analyze_city pts w).map resultKey = (sortByTimestamp pts).map pointKey := by
  rw [analyze_city, List.mapIdx_eq_enum_map, List.map_map]
  conv_rhs => rw [← List.enum_map_snd (sortByTimestamp pts), List.map_map]
  rfl

theorem sortByTimestamp_pairwise (pts : List Point) :
    (sortByTimestamp pts).Pairwise
      (fun a b => decide (a.timestamp ≤ b.timestamp) = true) :=
  List.sorted_mergeSort tsLE_trans tsLE_total pts

theorem mem_firstUniquesAux {α : Type _} [DecidableEq α] (l : List α) :
    ∀ (seen : List α) (x : α),
      x ∈ firstUniquesAux seen l ↔ x ∈ l ∧ x ∉ seen := by
  induction l with
  | nil => intro seen x; simp [firstUniquesAux]
  | cons a as ih =>
    intro seen x
    by_cases ha : a ∈ seen
    · rw [firstUniquesAux, if_pos ha, ih]
      constructor
      · rintro ⟨h1, h2⟩
        exact ⟨List.mem_cons_of_mem _ h1, h2⟩
      · rintro ⟨h1, h2⟩
        rcases List.mem_cons.mp h1 with rfl | h1
        · exact absurd ha h2
        · exact ⟨h1, h2⟩
    · rw [firstUniquesAux, if_neg ha]
      rw [List.mem_cons, ih]
      constructor
      · rintro (rfl | ⟨h1, h2⟩)
        · exact ⟨List.mem_cons_self _ _, ha⟩
        · refine ⟨List.mem_cons_of_mem _ h1, fun hc => h2 (List.mem_cons_of_mem _ hc)⟩
      · rintro ⟨h1, h2⟩
        rcases List.mem_cons.mp h1 with rfl | h1
        · exact Or.inl rfl
        · by_cases hx : x = a
          · exact Or.inl hx
          · exact Or.inr ⟨h1, fun hc => by
              rcases List.mem_cons.mp hc with h | h
              · exact hx h
              · exact h2 h⟩

theorem mem_firstUniques {α : Type _} [DecidableEq α] (l : List α) (x : α) :
    x ∈ firstUniques l ↔ x ∈ l := by
  rw [firstUniques, mem_firstUniquesAux]
  simp

theorem head?_filter_eq {α : Type _} (l : List α) (p : α → Bool) (v : α)
    (hall : ∀ x ∈ l, p x → x = v) (hex : ∃ x ∈ l, p x = true) :
    (l.filter p).head? = some v := by
  induction l with
  | nil =>
    rcases hex with ⟨x, hx, _⟩
    exact absurd hx (List.not_mem_nil x)
  | cons a as ih =>
    by_cases hpa : p a
    · rw [List.filter_cons_of_pos hpa, hall a (List.mem_cons_self a as) hpa]
      rfl
    · rw [List.filter_cons_of_neg (by simpa using hpa)]
      apply ih
      · intro x hx hpx
        exact hall x (List.mem_cons_of_mem _ hx) hpx
      · rcases hex with ⟨x, hx, hpx⟩
        rcases List.mem_cons.mp hx with rfl | hx
        · exact absurd hpx hpa
        · exact ⟨x, hx, hpx⟩

/-! ### Claim theorems -/

/-- Claim C2. For every entity series, window `w`, and sorted index `i` with
`i + 1 < w`, the result row at `i` has `rolling_mean`, `rolling_std`,
`lower_bound` and `upper_bound` all absent (NaN), and `is_anomaly` false. -/
theorem warmup_rows_have_no_stats_and_no_flag (pts : List Point) (w i : ℕ)
    (h : i + 1 < w) (hi : i < pts.length) :
    (rowAt pts w i).rolling_mean = none ∧
    (rowAt pts w i).rolling_std = none ∧
    (rowAt pts w i).lower_bound = none ∧
    (rowAt pts w i).upper_bound = none ∧
    ¬ (rowAt pts w i).is_anomaly := by
  rw [rowAt_eq pts w i hi]
  simp only [resultAt, rollingMeanAt, rollingStdAt, if_pos h]
  simp [ltOpt, gtOpt]

/-- Witness for `warmup_rows_have_no_stats_and_no_flag` at a concrete
two-point series with window 3. -/
theorem warmup_rows_witness :
    ((0 : ℕ) + 1 < 3 ∧ 0 < ([⟨"A", 0, 5, "winter"⟩, ⟨"A", 1, 6, "winter"⟩] : List Point).length) ∧
    (rowAt [⟨"A", 0, 5, "winter"⟩, ⟨"A", 1, 6, "winter"⟩] 3 0).rolling_mean = none := by
  have h1 : (0 : ℕ) + 1 < 3 := by omega
  have h2 : 0 < ([⟨"A", 0, 5, "winter"⟩, ⟨"A", 1, 6, "winter"⟩] : List Point).length := by simp
  exact ⟨⟨h1, h2⟩,
    (warmup_rows_have_no_stats_and_no_flag _ 3 0 h1 h2).1⟩

/-- Claim C1. For every entity series, window `w` with `1 ≤ w ≤ len`, at
every sorted index `i ≥ w - 1`: `rolling_mean` is the arithmetic mean of the
`w` window values, `rolling_std` is their sample standard deviation with
divisor `w - 1` (undefined — NaN — when that divisor is zero, i.e. `w = 1`),
and `lower_bound` / `upper_bound` are `rolling_mean ∓ 2·rolling_std` under
NaN-propagating arithmetic. -/
theorem rolling_stats_formula (pts : List Point) (w i : ℕ)
    (hw1 : 1 ≤ w) (hw2 : w ≤ pts.length) (hlo : w - 1 ≤ i) (hi : i < pts.length) :
    (rowAt pts w i).rolling_mean =
      some ((windowSlice ((sortByTimestamp pts).map Point.temperature) w i).sum / w) ∧
    (rowAt pts w i).rolling_std =
      (if w = 1 then none else
        some (Real.sqrt
          (((windowSlice ((sortByTimestamp pts).map Point.temperature) w i).map
              (fun x =>
                (x - (windowSlice ((sortByTimestamp pts).map Point.temperature) w i).sum / w) ^ 2)).sum
            / ((w : ℝ) - 1)))) ∧
    (rowAt pts w i).lower_bound =
      Option.map₂ (fun m s => m - 2 * s) (rowAt pts w i).rolling_mean (rowAt pts w i).rolling_std ∧
    (rowAt pts w i).upper_bound =
      Option.map₂ (fun m s => m + 2 * s) (rowAt pts w i).rolling_mean (rowAt pts w i).rolling_std := by
  have hvi : i < ((sortByTimestamp pts).map Point.temperature).length := by
    rw [List.length_map, sortByTimestamp_length]; omega
  have hwi : w ≤ i + 1 := by omega
  have hnot : ¬ (i + 1 < w) := by omega
  have hslice := windowSlice_length ((sortByTimestamp pts).map Point.temperature) w i hwi hvi
  rw [rowAt_eq pts w i hi]
  set vals := (sortByTimestamp pts).map Point.temperature with hvals
  have hmean : rollingMeanAt vals w i = some ((windowSlice vals w i).sum / w) := by
    rw [rollingMeanAt, if_neg hnot, listMean, hslice]
  have hstd : rollingStdAt vals w i =
      (if w = 1 then none else
        some (Real.sqrt
          (((windowSlice vals w i).map
              (fun x => (x - (windowSlice vals w i).sum / w) ^ 2)).sum / ((w : ℝ) - 1)))) := by
    rcases Nat.lt_or_ge w 2 with hlt | hge
    · have hw1' : w = 1 := by omega
      rw [rollingStdAt, if_neg hnot, if_pos (by omega), if_pos hw1']
    · rw [rollingStdAt, if_neg hnot, if_neg (by omega), if_neg (by omega)]
      rw [sampleVar, listMean, hslice]
  refine ⟨?_, ?_, ?_, ?_⟩
  · simp only [resultAt]; exact hmean
  · simp only [resultAt]; exact hstd
  · simp only [resultAt]
  · simp only [resultAt]

/-- Witness for `rolling_stats_formula` on the two-point series
`[(0, 1), (1, 3)]` with window 2 at sorted index 1. -/
theorem rolling_stats_formula_witness :
    ((1 : ℕ) ≤ 2 ∧ 2 ≤ ([⟨"A", 0, 1, "s"⟩, ⟨"A", 1, 3, "s"⟩] : List Point).length ∧
      2 - 1 ≤ 1 ∧ 1 < ([⟨"A", 0, 1, "s"⟩, ⟨"A", 1, 3, "s"⟩] : List Point).length) ∧
    (rowAt [⟨"A", 0, 1, "s"⟩, ⟨"A", 1, 3, "s"⟩] 2 1).rolling_mean =
      some ((windowSlice
        ((sortByTimestamp [⟨"A", 0, 1, "s"⟩, ⟨"A", 1, 3, "s"⟩]).map Point.temperature) 2 1).sum / 2) := by
  refine ⟨⟨by omega, by simp, by omega, by simp⟩, ?_⟩
  exact (rolling_stats_formula [⟨"A", 0, 1, "s"⟩, ⟨"A", 1, 3, "s"⟩] 2 1
    (by omega) (by simp) (by omega) (by simp)).1

/-- Claim C8, amended. With window `w = 1` the code's rolling std is the NaN
produced by the zero `ddof = 1` divisor, not 0: at every index the rolling
mean is the point's own (sorted) value, but `rolling_std`, `lower_bound` and
`upper_bound` are all absent, and `is_anomaly` is false. -/
theorem window_one_behaviour (pts : List Point) (i : ℕ) (hi : i < pts.length) :
    (rowAt pts 1 i).rolling_mean =
      some (((sortByTimestamp pts).map Point.temperature).getD i 0) ∧
    (rowAt pts 1 i).rolling_std = none ∧
    (rowAt pts 1 i).lower_bound = none ∧
    (rowAt pts 1 i).upper_bound = none ∧
    ¬ (rowAt pts 1 i).is_anomaly := by
  have hvi : i < ((sortByTimestamp pts).map Point.temperature).length := by
    rw [List.length_map, sortByTimestamp_length]; omega
  have hnot : ¬ (i + 1 < 1) := by omega
  rw [rowAt_eq pts 1 i hi]
  set vals := (sortByTimestamp pts).map Point.temperature with hvals
  have hmean : rollingMeanAt vals 1 i = some (vals.getD i 0) := by
    rw [rollingMeanAt, if_neg hnot, windowSlice_one vals i hvi, listMean]
    simp
  have hstd : rollingStdAt vals 1 i = none := by
    rw [rollingStdAt, if_neg hnot, if_pos (by omega)]
  simp [resultAt, hmean, hstd, ltOpt, gtOpt]

/-- Witness for `window_one_behaviour` on a concrete one-point series. -/
theorem window_one_behaviour_witness :
    0 < ([⟨"A", 0, 5, "winter"⟩] : List Point).length ∧
    (rowAt [⟨"A", 0, 5, "winter"⟩] 1 0).rolling_std = none := by
  refine ⟨by simp, ?_⟩
  exact (window_one_behaviour [⟨"A", 0, 5, "winter"⟩] 0 (by simp)).2.1

/-- Claim C8, counterexample. On the one-point series `[(ts 0, value 5)]`
with window 1, the claim's conclusion — std treated as 0 and
`lower_bound = upper_bound = rolling_mean = 5` — is false: the std and both
bounds are NaN (absent). -/
theorem window_one_claim_false :
    ¬ ((rowAt [⟨"A", 0, 5, "winter"⟩] 1 0).rolling_std = some 0 ∧
       (rowAt [⟨"A", 0, 5, "winter"⟩] 1 0).lower_bound = some 5 ∧
       (rowAt [⟨"A", 0, 5, "winter"⟩] 1 0).upper_bound = some 5) := by
  intro hcl
  have hstd : (rowAt [⟨"A", 0, 5, "winter"⟩] 1 0).rolling_std = none := by
    rw [rowAt_eq _ 1 0 (by simp)]
    simp only [resultAt, rollingStdAt]
    rfl
  rw [hcl.1] at hstd
  exact Option.noConfusion hstd

/-- Claim C7. If the `w ≥ 2` window values at sorted index `i` are all the
identical value `v`, the rolling std there is 0, both bounds collapse to
`v`, and the point is flagged anomalous exactly when its value differs from
`v` (a value equal to the mean is never anomalous under zero variance). -/
theorem zero_variance_window (pts : List Point) (w i : ℕ) (v : ℝ)
    (h2 : 2 ≤ w) (hi : i < pts.length)
    (hwin : windowSlice ((sortByTimestamp pts).map Point.temperature) w i =
      List.replicate w v) :
    (rowAt pts w i).rolling_std = some 0 ∧
    (rowAt pts w i).lower_bound = some v ∧
    (rowAt pts w i).upper_bound = some v ∧
    ((rowAt pts w i).is_anomaly ↔ (rowAt pts w i).temperature ≠ v) := by
  have hvi : i < ((sortByTimestamp pts).map Point.temperature).length := by
    rw [List.length_map, sortByTimestamp_length]; omega
  have hlen := congrArg List.length hwin
  simp only [windowSlice, List.length_drop, List.length_take,
    List.length_replicate] at hlen
  have hnot : ¬ (i + 1 < w) := by omega
  rw [rowAt_eq pts w i hi]
  set vals := (sortByTimestamp pts).map Point.temperature with hvals
  have hmean : rollingMeanAt vals w i = some v := by
    rw [rollingMeanAt, if_neg hnot, hwin, listMean_replicate w v (by omega)]
  have hstd : rollingStdAt vals w i = some 0 := by
    rw [rollingStdAt, if_neg hnot, if_neg (by omega), hwin,
      sampleVar_replicate w v (by omega), Real.sqrt_zero]
  simp only [resultAt, hmean, hstd, Option.map₂_some_some]
  refine ⟨trivial, by norm_num, by norm_num, ?_⟩
  simp only [ltOpt, gtOpt]
  norm_num [lt_or_lt_iff_ne]

/-- Witness for `zero_variance_window` on the series `[(0, 5), (1, 5)]` with
window 2 at sorted index 1. -/
theorem zero_variance_window_witness :
    ((2 : ℕ) ≤ 2 ∧ 1 < ([⟨"A", 0, 5, "s"⟩, ⟨"A", 1, 5, "s"⟩] : List Point).length ∧
      windowSlice ((sortByTimestamp [⟨"A", 0, 5, "s"⟩, ⟨"A", 1, 5, "s"⟩]).map
        Point.temperature) 2 1 = List.replicate 2 (5 : ℝ)) ∧
    (rowAt [⟨"A", 0, 5, "s"⟩, ⟨"A", 1, 5, "s"⟩] 2 1).rolling_std = some 0 := by
  have hsorted : sortByTimestamp [⟨"A", 0, 5, "s"⟩, ⟨"A", 1, 5, "s"⟩] =
      [⟨"A", 0, 5, "s"⟩, ⟨"A", 1, 5, "s"⟩] := by
    rw [sortByTimestamp]
    exact List.mergeSort_of_sorted (by simp)
  have hwin : windowSlice ((sortByTimestamp [⟨"A", 0, 5, "s"⟩, ⟨"A", 1, 5, "s"⟩]).map
      Point.temperature) 2 1 = List.replicate 2 (5 : ℝ) := by
    rw [hsorted]
    rfl
  refine ⟨⟨by omega, by simp, hwin⟩, ?_⟩
  exact (zero_variance_window [⟨"A", 0, 5, "s"⟩, ⟨"A", 1, 5, "s"⟩] 2 1 5
    (by omega) (by simp) hwin).1

/-- Claim C9, counterexample. On the two-row input `[(ts 0, temp 1),
(ts 0, temp 2)]`, the reversed list is also an admissible output of the
documented sort contract (`sort_values` with the default quicksort
guarantees a timestamp-sorted permutation, not stability), yet it is not in
original input order — so the claimed tie-breaking by input order is not a
guarantee of the program. -/
theorem analyze_order_tie_false :
    sortValuesAdmissible [⟨"A", 0, 1, "s"⟩, ⟨"A", 0, 2, "s"⟩]
        [⟨"A", 0, 2, "s"⟩, ⟨"A", 0, 1, "s"⟩] ∧
    ([⟨"A", 0, 2, "s"⟩, ⟨"A", 0, 1, "s"⟩] : List Point) ≠
        [⟨"A", 0, 1, "s"⟩, ⟨"A", 0, 2, "s"⟩] := by
  refine ⟨⟨List.Perm.swap _ _ _, by simp⟩, ?_⟩
  intro h
  have h2 : (⟨"A", 0, 2, "s"⟩ : Point) = ⟨"A", 0, 1, "s"⟩ := by injection h
  have h3 : (2 : ℝ) = 1 := congrArg Point.temperature h2
  norm_num at h3

/-- Claim C9, amended. The per-city analysis returns exactly one result per
input point, carrying the input rows unchanged (a permutation of the
input), in non-decreasing timestamp order; the order of rows with equal
timestamps is implementation-defined (the default pandas sort is documented
not stable), and the model's sort realises one admissible tie order of the
documented contract. -/
theorem analyze_order_contract_amended (pts : List Point) (w : ℕ) :
    (analyze_city pts w).length = pts.length ∧
    ((analyze_city pts w).map resultKey).Perm (pts.map pointKey) ∧
    (analyze_city pts w).Pairwise (fun a b => a.timestamp ≤ b.timestamp) ∧
    sortValuesAdmissible pts (sortByTimestamp pts) := by
  refine ⟨analyze_city_length pts w, ?_, ?_, ?_, ?_⟩
  · rw [analyze_city_map_key]
    exact (List.mergeSort_perm pts _).map pointKey
  · have hsorted := sortByTimestamp_pairwise pts
    have hmap : ((analyze_city pts w).map resultKey).Pairwise
        (fun a b => a.2.1 ≤ b.2.1) := by
      rw [analyze_city_map_key, List.pairwise_map]
      exact hsorted.imp (by intro a b h; simpa using h)
    rw [List.pairwise_map] at hmap
    exact hmap.imp (fun h => h)
  · exact List.mergeSort_perm pts _
  · exact (sortByTimestamp_pairwise pts).imp (by intro a b h; simpa using h)

/-- Claim C3. For every dataset and window, the multiset of result rows of
the parallel per-city run equals the multiset obtained by running the
analysis serially over each city's series and concatenating (and the two
runs agree on failures as well). -/
theorem parallel_refines_serial (df : List Point) (w : ℤ) :
    (analyze_all_cities_parallel df w).map
        (fun l => (l : Multiset RollingResult)) =
      (analyze_all_cities df w).map (fun l => (l : Multiset RollingResult)) := by
  have h : analyze_all_cities_parallel df w = analyze_all_cities df w := by
    rw [analyze_all_cities_parallel, analyze_all_cities, List.map_map]
    rfl
  rw [h]

/-- Claim C6. If the analysis of any one partition fails (the only failure
mode being `InvalidWindow`), the whole parallel run fails with that error
and returns no merged results at all. -/
theorem parallel_fail_fast (df : List Point) (w : ℤ) (c : String)
    (e : AnalysisError) (hc : c ∈ uniqueCities df)
    (he : analyze_city_checked (cityRows df c) w = .error e) :
    analyze_all_cities_parallel df w = .error e := by
  have hw : w ≤ 0 := by
    by_contra hw
    rw [analyze_city_checked, if_neg hw] at he
    exact Except.noConfusion he
  have he' : e = .invalidWindow := by cases e; rfl
  obtain ⟨c0, rest, hcities⟩ : ∃ c0 rest, uniqueCities df = c0 :: rest := by
    cases h : uniqueCities df with
    | nil => rw [h] at hc; exact absurd hc (List.not_mem_nil c)
    | cons c0 rest => exact ⟨c0, rest, rfl⟩
  rw [analyze_all_cities_parallel]
  simp only [hcities, List.map_cons]
  rw [analyze_city_wrapper]
  simp only
  rw [analyze_city_checked, if_pos hw, collectResults, he']
  rfl

/-- Witness for `parallel_fail_fast`: a one-row dataset analysed with
window 0. -/
theorem parallel_fail_fast_witness :
    (("A" : String) ∈ uniqueCities [⟨"A", 0, 5, "winter"⟩] ∧
      analyze_city_checked (cityRows [⟨"A", 0, 5, "winter"⟩] ("A")) 0 =
        .error .invalidWindow) ∧
    analyze_all_cities_parallel [⟨"A", 0, 5, "winter"⟩] 0 =
      .error .invalidWindow := by
  have h1 : ("A" : String) ∈ uniqueCities [⟨"A", 0, 5, "winter"⟩] := by
    rw [uniqueCities, mem_firstUniques]
    simp
  have h2 : analyze_city_checked (cityRows [⟨"A", 0, 5, "winter"⟩] ("A")) 0 =
      .error .invalidWindow := by
    rw [analyze_city_checked, if_pos (by omega)]
  exact ⟨⟨h1, h2⟩, parallel_fail_fast _ 0 ("A") .invalidWindow h1 h2⟩

/-- Claim C4. When the baselines table has a matching row for (city, current
season) whose std is defined, the classifier returns true exactly when the
live value lies strictly outside `mean ± 2·std` of that row — and the
current season is derived from the month by the fixed calendar mapping. -/
theorem classifier_verdict (stats : List SeasonRow) (c : String) (t : ℝ)
    (month : ℕ) (row : SeasonRow) (s : ℝ)
    (hrow : (stats.filter
        (fun r => decide (r.city = c ∧ r.season = seasonOfMonth month))).head? =
      some row)
    (hstd : row.std = some s) :
    check_current_temperature_anomaly c t stats month =
      .ok (t < row.mean - 2 * s ∨ row.mean + 2 * s < t) ∧
    (seasonOfMonth 12 = "winter" ∧ seasonOfMonth 1 = "winter" ∧
      seasonOfMonth 2 = "winter" ∧ seasonOfMonth 3 = "spring" ∧
      seasonOfMonth 4 = "spring" ∧ seasonOfMonth 5 = "spring" ∧
      seasonOfMonth 6 = "summer" ∧ seasonOfMonth 7 = "summer" ∧
      seasonOfMonth 8 = "summer" ∧ seasonOfMonth 9 = "autumn" ∧
      seasonOfMonth 10 = "autumn" ∧ seasonOfMonth 11 = "autumn") := by
  obtain ⟨tail, htail⟩ : ∃ tail,
      stats.filter
        (fun r => decide (r.city = c ∧ r.season = seasonOfMonth month)) =
        row :: tail := by
    cases h : stats.filter
        (fun r => decide (r.city = c ∧ r.season = seasonOfMonth month)) with
    | nil => rw [h] at hrow; exact Option.noConfusion hrow
    | cons a as =>
      rw [h] at hrow
      refine ⟨as, ?_⟩
      have : a = row := by injection hrow
      rw [this]
  constructor
  · rw [check_current_temperature_anomaly, htail]
    simp [hstd, ltOpt, gtOpt]
  · exact ⟨rfl, rfl, rfl, rfl, rfl, rfl, rfl, rfl, rfl, rfl, rfl, rfl⟩

/-- Witness for `classifier_verdict`: baseline mean 20 and std 5 for
(CityA, winter), live value 32 in January. -/
theorem classifier_verdict_witness :
    ((([⟨"CityA", "winter", 20, some 5⟩] : List SeasonRow).filter
        (fun r => decide (r.city = ("CityA") ∧ r.season = seasonOfMonth 1))).head? =
      some ⟨"CityA", "winter", 20, some 5⟩ ∧
      (⟨"CityA", "winter", 20, some 5⟩ : SeasonRow).std = some 5) ∧
    check_current_temperature_anomaly ("CityA") 32 [⟨"CityA", "winter", 20, some 5⟩] 1 =
      .ok ((32 : ℝ) < 20 - 2 * 5 ∨ (20 : ℝ) + 2 * 5 < 32) := by
  have h1 : (([⟨"CityA", "winter", 20, some 5⟩] : List SeasonRow).filter
      (fun r => decide (r.city = ("CityA") ∧ r.season = seasonOfMonth 1))).head? =
      some ⟨"CityA", "winter", 20, some 5⟩ := by rfl
  exact ⟨⟨h1, rfl⟩,
    (classifier_verdict [⟨"CityA", "winter", 20, some 5⟩] ("CityA") 32 1
      ⟨"CityA", "winter", 20, some 5⟩ 5 h1 rfl).1⟩

/-- Claim C5. When the baselines table holds no row for (city, current
season), the classifier does not return a verdict: it fails with
`NoBaselineForSeason` (there is no fallback to a coarser aggregate). -/
theorem classifier_missing_baseline (stats : List SeasonRow) (c : String)
    (t : ℝ) (month : ℕ)
    (h : ∀ r ∈ stats, ¬ (r.city = c ∧ r.season = seasonOfMonth month)) :
    check_current_temperature_anomaly c t stats month =
      .error .noBaselineForSeason := by
  have hfil : stats.filter
      (fun r => decide (r.city = c ∧ r.season = seasonOfMonth month)) = [] := by
    rw [List.filter_eq_nil_iff]
    intro r hr
    simpa using h r hr
  rw [check_current_temperature_anomaly, hfil]

/-- Witness for `classifier_missing_baseline`: the table only has a
(CityA, winter) row, and CityB is looked up in January. -/
theorem classifier_missing_baseline_witness :
    (∀ r ∈ ([⟨"CityA", "winter", 20, some 5⟩] : List SeasonRow),
      ¬ (r.city = ("CityB") ∧ r.season = seasonOfMonth 1)) ∧
    check_current_temperature_anomaly ("CityB") 10 [⟨"CityA", "winter", 20, some 5⟩] 1 =
      .error .noBaselineForSeason := by
  have h : ∀ r ∈ ([⟨"CityA", "winter", 20, some 5⟩] : List SeasonRow),
      ¬ (r.city = ("CityB") ∧ r.season = seasonOfMonth 1) := by
    intro r hr
    rcases List.mem_cons.mp hr with rfl | hr
    · intro hc
      exact absurd hc.1 (by decide)
    · exact absurd hr (List.not_mem_nil r)
  exact ⟨h, classifier_missing_baseline _ ("CityB") 10 1 h⟩

/-- Claim C10. A (city, season) pair with exactly one observation gets a
baseline row whose sample std is undefined (NaN), and classifying any live
value against the built table returns false — never an anomaly flag and
never a missing-baseline failure. -/
theorem singleton_group_never_flagged (df : List Point) (c : String) (t : ℝ)
    (month : ℕ)
    (hobs : (df.filter
        (fun q => decide (q.city = c ∧ q.season = seasonOfMonth month))).length = 1) :
    seasonRowFor df c (seasonOfMonth month) ∈ compute_season_stats df ∧
    (seasonRowFor df c (seasonOfMonth month)).std = none ∧
    check_current_temperature_anomaly c t (compute_season_stats df) month =
      .ok False := by
  set s := seasonOfMonth month with hs
  have hglen : (seasonGroup df c s).length = 1 := by
    rw [seasonGroup, List.length_map]
    exact hobs
  have hq : ∃ q ∈ df, (q.city = c ∧ q.season = s) := by
    have hpos : 0 < (df.filter
        (fun q => decide (q.city = c ∧ q.season = s))).length := by omega
    obtain ⟨q, hq⟩ := List.exists_mem_of_length_pos hpos
    rw [List.mem_filter] at hq
    exact ⟨q, hq.1, by simpa using hq.2⟩
  have hpair : (c, s) ∈ firstUniques (df.map (fun q => (q.city, q.season))) := by
    rw [mem_firstUniques, List.mem_map]
    obtain ⟨q, hq1, hq2, hq3⟩ := hq
    exact ⟨q, hq1, by rw [hq2, hq3]⟩
  have hmem : seasonRowFor df c s ∈ compute_season_stats df := by
    rw [compute_season_stats, List.mem_map]
    exact ⟨(c, s), hpair, rfl⟩
  have hstd : (seasonRowFor df c s).std = none := by
    rw [seasonRowFor]
    simp only [hglen]
    rfl
  refine ⟨hmem, hstd, ?_⟩
  have hhead : ((compute_season_stats df).filter
      (fun r => decide (r.city = c ∧ r.season = s))).head? =
      some (seasonRowFor df c s) := by
    apply head?_filter_eq
    · intro x hx hpx
      rw [compute_season_stats, List.mem_map] at hx
      obtain ⟨cs, _, hcs⟩ := hx
      have hcity : x.city = cs.1 := by rw [← hcs]; rfl
      have hseason : x.season = cs.2 := by rw [← hcs]; rfl
      have hp : x.city = c ∧ x.season = s := by simpa using hpx
      rw [← hcs, show cs = (c, s) from
        Prod.ext (by rw [← hcity, hp.1]) (by rw [← hseason, hp.2])]
    · exact ⟨seasonRowFor df c s, hmem, by simp [seasonRowFor]⟩
  obtain ⟨tail, htail⟩ : ∃ tail,
      (compute_season_stats df).filter
        (fun r => decide (r.city = c ∧ r.season = s)) =
        seasonRowFor df c s :: tail := by
    cases h : (compute_season_stats df).filter
        (fun r => decide (r.city = c ∧ r.season = s)) with
    | nil => rw [h] at hhead; exact Option.noConfusion hhead
    | cons a as =>
      rw [h] at hhead
      refine ⟨as, ?_⟩
      have : a = seasonRowFor df c s := by injection hhead
      rw [this]
  rw [check_current_temperature_anomaly, ← hs, htail]
  simp [hstd, ltOpt, gtOpt]

/-- Witness for `singleton_group_never_flagged`: a dataset with a single
(A, winter) observation, classified in January. -/
theorem singleton_group_witness :
    (([⟨"A", 0, 5, "winter"⟩] : List Point).filter
      (fun q => decide (q.city = ("A") ∧ q.season = seasonOfMonth 1))).length = 1 ∧
    check_current_temperature_anomaly ("A") 1000 (compute_season_stats [⟨"A", 0, 5, "winter"⟩]) 1 =
      .ok False := by
  have h : (([⟨"A", 0, 5, "winter"⟩] : List Point).filter
      (fun q => decide (q.city = ("A") ∧ q.season = seasonOfMonth 1))).length = 1 := by rfl
  exact ⟨h, (singleton_group_never_flagged [⟨"A", 0, 5, "winter"⟩] ("A") 1000 1 h).2.2⟩

end TempAnomaly
